import Mathlib

/-!
Shallow embedding of `claude-island-state.py` (the Claude Island hook script).

The script reads one JSON event document from standard input, classifies it
into a session-status record, sends the record over a Unix-domain or TCP
socket, and — only for `PermissionRequest` events — waits for a decision
reply and prints an allow/deny directive on standard output.

Modelling conventions:
* Python/JSON values are the inductive `Json` below; Python `dict`s built by
  the script are association lists `Dict` with Python's assignment semantics
  (`setKey` replaces in place or appends).
* The operating system and network are an oracle (`NetEnv`): whether the
  connect and send calls succeed, and what `recv` yields.  Received bytes
  are represented by the quotient of byte strings under the only
  observations the script makes of them: emptiness (`if response:`),
  UTF-8 decoding (`response.decode()`), and JSON parsing (`json.loads`).
* Socket effects are logged in an explicit trace of `SockOp`s; the payload
  of a `send` carries the `Json` value whose serialization
  (`json.dumps(state).encode()`) is the byte sequence written.
* Python exceptions are an `Except PyExc` result; the script's
  `except (socket.error, OSError, json.JSONDecodeError)` clause catches
  `osError` and `jsonDecodeError` but not `valueError` / `attributeError`.
-/

namespace ClaudeIsland

/-- JSON values (also used for arbitrary Python values the script moves
around: `None` is `null`, strings are `str`, dicts are `obj`, ...). -/
inductive Json where
  | null : Json
  | bool : Bool → Json
  | num : Int → Json
  | str : String → Json
  | arr : List Json → Json
  | obj : List (String × Json) → Json
  deriving Repr

/-- Python dicts as insertion-ordered association lists. -/
abbrev Dict := List (String × Json)

/-- `d.get(k)` without default: first value bound to `k`, if any. -/
def getKey : Dict → String → Option Json
  | [], _ => none
  | (k, v) :: rest, k0 => if k0 = k then some v else getKey rest k0

/-- Python `d.get(k, default)`. -/
def getD (d : Dict) (k : String) (v0 : Json) : Json :=
  (getKey d k).getD v0

/-- The keys of a dict, in order. -/
def keys (d : Dict) : List String :=
  d.map Prod.fst

/-- How many entries of `d` carry key `k`. -/
def countKey (d : Dict) (k : String) : Nat :=
  (d.filter (fun p => p.1 = k)).length

/-- Python `d[k] = v`: replace the value in place if the key exists,
otherwise append a new entry. -/
def setKey (d : Dict) (k : String) (v : Json) : Dict :=
  if d.any (fun p => p.1 = k) then
    d.map (fun p => if p.1 = k then (k, v) else p)
  else
    d ++ [(k, v)]

/-- Python truthiness of a JSON/Python value: `None`, `False`, `0`, `""`,
`[]` and `{}` are falsy, everything else truthy. -/
def Json.truthy : Json → Bool
  | .null => false
  | .bool b => b
  | .num n => n != 0
  | .str s => s.data != []
  | .arr l => !l.isEmpty
  | .obj l => !l.isEmpty

/-- Python `x == "s"` where `"s"` is a string literal: true exactly when
`x` is that string (comparisons with non-strings are `False`). -/
def Json.isStr (j : Json) (s : String) : Bool :=
  match j with
  | .str t => t = s
  | _ => false

/-- Truthiness of `os.environ.get(...)`: a string that is set and non-empty. -/
def truthyEnv : Option String → Bool
  | none => false
  | some s => s.data != []

/-! ### Python `int(str)` (the fragment the script can reach) -/

def isPyDigit (c : Char) : Bool :=
  '0' ≤ c && c ≤ '9'

def digitVal (c : Char) : Nat :=
  c.toNat - 48

/-- Digits after the first one: an underscore is allowed only between two
digits (`int("1_2")` is fine, `int("1__2")` and `int("1_")` raise). -/
def digCore (acc : Nat) : List Char → Option Nat
  | [] => some acc
  | '_' :: rest =>
    match rest with
    | [] => none
    | c :: rest2 =>
      if isPyDigit c then digCore (acc * 10 + digitVal c) rest2 else none
  | c :: rest =>
    if isPyDigit c then digCore (acc * 10 + digitVal c) rest else none

/-- A non-empty digit string starting with a digit. -/
def pyDigits : List Char → Option Nat
  | [] => none
  | c :: rest => if isPyDigit c then digCore (digitVal c) rest else none

def isPySpace (c : Char) : Bool :=
  c = ' ' || c = '\t' || c = '\n' || c = '\r' || c = '\x0b' || c = '\x0c'

/-- Strip leading and trailing whitespace. -/
def pyStrip (l : List Char) : List Char :=
  ((l.dropWhile isPySpace).reverse.dropWhile isPySpace).reverse

/-- Python `int(s)` on a decimal string: `none` models a raised
`ValueError`. -/
def pyInt (s : String) : Option Int :=
  match pyStrip s.data with
  | '+' :: rest => (pyDigits rest).map (fun n => (n : Int))
  | '-' :: rest => (pyDigits rest).map (fun n => -(n : Int))
  | l => (pyDigits l).map (fun n => (n : Int))

/-! ### Transport selection (`get_socket`, lines 57–76) -/

/-- `SOCKET_PATH` constant of the script. -/
def SOCKET_PATH : String := "/tmp/claude-island.sock"

/-- `TIMEOUT_SECONDS` constant of the script (`sock.settimeout`). -/
def TIMEOUT_SECONDS : Nat := 300

/-- Which endpoint `get_socket` connects to. -/
inductive SockTarget where
  | tcp (host : String) (port : Int)
  | unix (path : String)
  deriving Repr

/-- Python exceptions distinguished by the script's `except` clauses. -/
inductive PyExc where
  | osError
  | valueError
  | jsonDecodeError
  | attributeError
  deriving Repr, DecidableEq

/-- Python `t.rsplit(":", 1)` when `":" in t`: split at the last colon. -/
def rsplitColon (s : String) : String × String :=
  let rev := s.data.reverse
  let post := rev.takeWhile (fun c => c != ':')
  match rev.dropWhile (fun c => c != ':') with
  | [] => (String.mk [], String.mk post.reverse)
  | _ :: hostRev => (String.mk hostRev.reverse, String.mk post.reverse)

/-- `get_socket` (lines 57–76), reduced to the endpoint it connects to.
`CLAUDE_ISLAND_TCP` truthy (set, non-empty): split `host:port` on the last
colon, or treat the whole value as a port with host `localhost`;
`int(port_str)` failing is an uncaught `ValueError`.  Otherwise the fixed
Unix-socket path.  The socket creation / `settimeout TIMEOUT_SECONDS` /
`connect` effects are logged by `send_event`'s trace against this target. -/
def get_socket (tcpEnv : Option String) : Except PyExc SockTarget :=
  match tcpEnv with
  | none => .ok (.unix SOCKET_PATH)
  | some t =>
    if t.data.isEmpty then .ok (.unix SOCKET_PATH)
    else if t.data.contains ':' then
      match pyInt (rsplitColon t).2 with
      | some port => .ok (.tcp (rsplitColon t).1 port)
      | none => .error .valueError
    else
      match pyInt t with
      | some port => .ok (.tcp "localhost" port)
      | none => .error .valueError

/-! ### The network oracle and `send_event` (lines 103–120) -/

/-- Received reply bytes, quotiented by the observations the script makes:
Python truthiness of the byte string, UTF-8 decoding, JSON parsing. -/
inductive ReplyBytes where
  | empty
  | badUtf8
  | badJson
  | goodJson (j : Json)
  deriving Repr

/-- Outcome of the single `sock.recv(4096)` call: an `OSError` (connection
reset, or the 300-second timeout expiring) or a byte string. -/
inductive RecvOutcome where
  | err
  | bytes (b : ReplyBytes)
  deriving Repr

/-- Oracle for one invocation's transport behaviour. -/
structure NetEnv where
  connectOk : Bool
  sendOk : Bool
  recv : RecvOutcome

/-- One socket effect.  `connect` records the endpoint and the timeout that
was set on the socket; `send` carries the value whose JSON serialization is
the byte payload written by `sock.sendall`. -/
inductive SockOp where
  | connect (target : SockTarget) (timeout : Nat)
  | send (payload : Json)
  | recvOp
  | close
  deriving Repr

/-- `send_event(state)` (lines 103–120): connect, `sendall` the serialized
state, and for `waiting_for_approval` records `recv` a reply, close, and
parse it.  `socket.error`/`OSError`/`json.JSONDecodeError` are caught and
become `.ok none`; `ValueError` from `int()` in `get_socket` and
`UnicodeDecodeError` (a `ValueError`) from `response.decode()` escape. -/
def send_event (tcpEnv : Option String) (net : NetEnv) (state : Dict) :
    Except PyExc (Option Json) × List SockOp :=
  match get_socket tcpEnv with
  | .error e => (.error e, [])
  | .ok target =>
    if net.connectOk then
      if net.sendOk then
        if (getD state "status" Json.null).isStr "waiting_for_approval" then
          match net.recv with
          | .err =>
            (.ok none, [.connect target TIMEOUT_SECONDS, .send (Json.obj state), .recvOp])
          | .bytes b =>
            let tr := [SockOp.connect target TIMEOUT_SECONDS, .send (Json.obj state), .recvOp, .close]
            match b with
            | .empty => (.ok none, tr)
            | .badUtf8 => (.error .valueError, tr)
            | .badJson => (.ok none, tr)
            | .goodJson j => (.ok (some j), tr)
        else
          (.ok none, [.connect target TIMEOUT_SECONDS, .send (Json.obj state), .close])
      else
        (.ok none, [.connect target TIMEOUT_SECONDS, .send (Json.obj state)])
    else
      (.ok none, [.connect target TIMEOUT_SECONDS])

/-! ### Ambient context and the base state record (lines 129–151) -/

/-- Ambient facts `main` gathers before classifying: the parent pid
(`os.getppid()`), the best-effort tty from `get_tty()`, the
`CLAUDE_ISLAND_REMOTE_HOST` environment variable, and what
`get_tmux_target()` would return.  All four are external probes the spec
places out of scope, so they are oracle inputs here. -/
structure Ambient where
  pid : Int
  tty : Option String
  remoteHost : Option String
  tmuxProbe : Option String

/-- A Python value that is a string or `None`, as stored in a dict. -/
def optStr : Option String → Json
  | none => Json.null
  | some s => Json.str s

/-- The state dict built at lines 142–151, before the event dispatch.
`tmux_target` is `get_tmux_target() if remote_host else None`. -/
def baseState (data : Dict) (amb : Ambient) : Dict :=
  [("session_id", getD data "session_id" (Json.str "unknown")),
   ("cwd", getD data "cwd" (Json.str "")),
   ("event", getD data "hook_event_name" (Json.str "")),
   ("pid", Json.num amb.pid),
   ("tty", optStr amb.tty),
   ("remote_host", optStr amb.remoteHost),
   ("tmux_target", optStr (if truthyEnv amb.remoteHost then amb.tmuxProbe else none))]

/-- The keys every record starts with. -/
def baseKeys : List String :=
  ["session_id", "cwd", "event", "pid", "tty", "remote_host", "tmux_target"]

/-! ### Event classification (lines 153–249) -/

/-- Result of the event dispatch: the `Notification`/`permission_prompt`
branch exits before any send; `PermissionRequest` goes down the
decision-rendezvous path; everything else is fire-and-forget. -/
inductive Classified where
  | suppressed
  | permission (state : Dict)
  | plain (state : Dict)

/-- The `if event == ... / elif ... / else` chain of `main`
(lines 153–249), producing the state record that will be sent (or the
decision to suppress).  Field accesses mirror the script:
`data.get("tool_name")`, `data.get("tool_input", {})`,
`data.get("tool_use_id")` (attached only when truthy),
`data.get("notification_type")`, `data.get("message")`. -/
def classify (data : Dict) (amb : Ambient) : Classified :=
  let event := getD data "hook_event_name" (Json.str "")
  let tool_input := getD data "tool_input" (Json.obj [])
  let st := baseState data amb
  if event.isStr "UserPromptSubmit" then
    .plain (setKey st "status" (Json.str "processing"))
  else if event.isStr "PreToolUse" then
    let st := setKey (setKey (setKey st "status" (Json.str "running_tool"))
      "tool" (getD data "tool_name" Json.null)) "tool_input" tool_input
    let tuid := getD data "tool_use_id" Json.null
    .plain (if tuid.truthy then setKey st "tool_use_id" tuid else st)
  else if event.isStr "PostToolUse" then
    let st := setKey (setKey (setKey st "status" (Json.str "processing"))
      "tool" (getD data "tool_name" Json.null)) "tool_input" tool_input
    let tuid := getD data "tool_use_id" Json.null
    .plain (if tuid.truthy then setKey st "tool_use_id" tuid else st)
  else if event.isStr "PermissionRequest" then
    .permission (setKey (setKey (setKey st "status" (Json.str "waiting_for_approval"))
      "tool" (getD data "tool_name" Json.null)) "tool_input" tool_input)
  else if event.isStr "Notification" then
    let ntype := getD data "notification_type" Json.null
    if ntype.isStr "permission_prompt" then
      .suppressed
    else
      let st := if ntype.isStr "idle_prompt" then
        setKey st "status" (Json.str "waiting_for_input")
      else
        setKey st "status" (Json.str "notification")
      .plain (setKey (setKey st "notification_type" ntype)
        "message" (getD data "message" Json.null))
  else if event.isStr "Stop" then
    .plain (setKey st "status" (Json.str "waiting_for_input"))
  else if event.isStr "SubagentStop" then
    .plain (setKey st "status" (Json.str "waiting_for_input"))
  else if event.isStr "SessionStart" then
    .plain (setKey st "status" (Json.str "waiting_for_input"))
  else if event.isStr "SessionEnd" then
    .plain (setKey st "status" (Json.str "ended"))
  else if event.isStr "PreCompact" then
    .plain (setKey st "status" (Json.str "compacting"))
  else
    .plain (setKey st "status" (Json.str "unknown"))

/-! ### Decision translation (lines 186–216) -/

/-- The default deny message. -/
def denyDefaultMsg : String := "Denied by user via ClaudeIsland"

/-- The approval directive printed for `decision == "allow"`. -/
def allowDoc : Json :=
  Json.obj [("hookSpecificOutput", Json.obj
    [("hookEventName", Json.str "PermissionRequest"),
     ("decision", Json.obj [("behavior", Json.str "allow")])])]

/-- The refusal directive printed for `decision == "deny"`. -/
def denyDoc (message : Json) : Json :=
  Json.obj [("hookSpecificOutput", Json.obj
    [("hookEventName", Json.str "PermissionRequest"),
     ("decision", Json.obj
       [("behavior", Json.str "deny"), ("message", message)])])]

/-- Reply handling on the `PermissionRequest` path (lines 186–216),
returning the documents printed to standard output.  `if response:` is
Python truthiness (so `{}` and `None` fall through silently);
`response.get(...)` on a truthy non-dict reply raises `AttributeError`;
the deny message is `reason or "Denied by user via ClaudeIsland"`.
Every non-raising outcome ends in `sys.exit(0)`. -/
def translate (response : Option Json) : Except PyExc (List Json) :=
  match response with
  | none => .ok []
  | some r =>
    if r.truthy then
      match r with
      | .obj fl =>
        let decision := getD fl "decision" (Json.str "ask")
        let reason := getD fl "reason" (Json.str "")
        if decision.isStr "allow" then
          .ok [allowDoc]
        else if decision.isStr "deny" then
          .ok [denyDoc (if reason.truthy then reason else Json.str denyDefaultMsg)]
        else
          .ok []
      | _ => .error .attributeError
    else
      .ok []

/-! ### The driver `main` (lines 123–252) -/

/-- Observable outcome of one run: the process exit status, the documents
printed on standard output, and the socket-operation trace. -/
structure MainResult where
  exitCode : Nat
  stdout : List Json
  trace : List SockOp

/-- `main` after a successful `json.load(sys.stdin)` of a JSON object:
build the base state, dispatch on the event, send, and for the permission
path translate the reply.  Every completed path is `sys.exit(0)` /
falling off the end of `main`. -/
def mainBody (data : Dict) (amb : Ambient) (tcpEnv : Option String)
    (net : NetEnv) : Except PyExc MainResult :=
  match classify data amb with
  | .suppressed => .ok ⟨0, [], []⟩
  | .permission st =>
    match send_event tcpEnv net st with
    | (.error e, _) => .error e
    | (.ok response, tr) =>
      match translate response with
      | .error e => .error e
      | .ok docs => .ok ⟨0, docs, tr⟩
  | .plain st =>
    match send_event tcpEnv net st with
    | (.error e, _) => .error e
    | (.ok _, tr) => .ok ⟨0, [], tr⟩

/-- `main` (lines 123–252).  `stdin = none` models standard input that is
not valid JSON: `json.JSONDecodeError` is caught and the process exits
with status 1 having done no I/O.  A JSON document that is not an object
makes `data.get` raise an uncaught `AttributeError`. -/
def main (stdin : Option Json) (amb : Ambient) (tcpEnv : Option String)
    (net : NetEnv) : Except PyExc MainResult :=
  match stdin with
  | none => .ok ⟨1, [], []⟩
  | some (Json.obj data) => mainBody data amb tcpEnv net
  | some _ => .error .attributeError

/-- The records a run actually wrote to the socket. -/
def sentPayloads (tr : List SockOp) : List Json :=
  tr.filterMap (fun op => match op with | .send p => some p | _ => none)

def isSend : SockOp → Bool
  | .send _ => true
  | _ => false

def isRecv : SockOp → Bool
  | .recvOp => true
  | _ => false

def isClose : SockOp → Bool
  | .close => true
  | _ => false

/-- Number of `sendall` calls in a trace. -/
def countSends (tr : List SockOp) : Nat :=
  (tr.filter isSend).length

/-- Number of `recv` calls in a trace. -/
def countRecvs (tr : List SockOp) : Nat :=
  (tr.filter isRecv).length

/-- Number of `close` calls in a trace. -/
def countClose (tr : List SockOp) : Nat :=
  (tr.filter isClose).length

/-- The record classified for a `PermissionRequest` event (the argument of
`Classified.permission` in `classify`). -/
def permState (data : Dict) (amb : Ambient) : Dict :=
  setKey (setKey (setKey (baseState data amb) "status" (Json.str "waiting_for_approval"))
    "tool" (getD data "tool_name" Json.null)) "tool_input" (getD data "tool_input" (Json.obj []))

/-- The event tags the dispatch chain recognizes. -/
def recognizedEvents : List String :=
  ["UserPromptSubmit", "PreToolUse", "PostToolUse", "PermissionRequest", "Notification",
   "Stop", "SubagentStop", "SessionStart", "SessionEnd", "PreCompact"]

/-! ### Concrete inputs used by witnesses and counterexamples -/

def c1data : Dict := [("hook_event_name", Json.str "PreToolUse"), ("tool_use_id", Json.str "")]

def c1amb : Ambient := ⟨1, none, none, none⟩

/-- What `classify` produces for `c1data` under `c1amb`. -/
def c1rec : Dict :=
  [("session_id", Json.str "unknown"), ("cwd", Json.str ""),
   ("event", Json.str "PreToolUse"), ("pid", Json.num 1), ("tty", Json.null),
   ("remote_host", Json.null), ("tmux_target", Json.null),
   ("status", Json.str "running_tool"), ("tool", Json.null),
   ("tool_input", Json.obj [])]

def c1wdata : Dict := [("hook_event_name", Json.str "PreToolUse"), ("tool_use_id", Json.str "t1")]

/-- What `classify` produces for `c1wdata` under `c1amb`. -/
def c1wrec : Dict :=
  [("session_id", Json.str "unknown"), ("cwd", Json.str ""),
   ("event", Json.str "PreToolUse"), ("pid", Json.num 1), ("tty", Json.null),
   ("remote_host", Json.null), ("tmux_target", Json.null),
   ("status", Json.str "running_tool"), ("tool", Json.null),
   ("tool_input", Json.obj []), ("tool_use_id", Json.str "t1")]

def c2wdata : Dict := [("hook_event_name", Json.str "PermissionRequest")]

/-- What `classify` produces for `c2wdata` under `c1amb`. -/
def c2wrec : Dict :=
  [("session_id", Json.str "unknown"), ("cwd", Json.str ""),
   ("event", Json.str "PermissionRequest"), ("pid", Json.num 1), ("tty", Json.null),
   ("remote_host", Json.null), ("tmux_target", Json.null),
   ("status", Json.str "waiting_for_approval"), ("tool", Json.null),
   ("tool_input", Json.obj [])]

/-- A transport that delivers an allow decision. -/
def c2wnet : NetEnv := ⟨true, true, .bytes (.goodJson (Json.obj [("decision", Json.str "allow")]))⟩

/-- A minimal `waiting_for_approval` record. -/
def c8state : Dict := [("status", Json.str "waiting_for_approval")]

def c9data : Dict := [("hook_event_name", Json.str "Stop")]

def c9amb : Ambient := ⟨7, none, none, none⟩

/-- What `classify` produces for `c9data` under `c9amb`. -/
def c9rec : Dict :=
  [("session_id", Json.str "unknown"), ("cwd", Json.str ""),
   ("event", Json.str "Stop"), ("pid", Json.num 7), ("tty", Json.null),
   ("remote_host", Json.null), ("tmux_target", Json.null),
   ("status", Json.str "waiting_for_input")]

/-! ## Helper lemmas -/

theorem getD_nil (k : String) (d : Json) : getD [] k d = d := rfl

theorem isStr_false_of_ne (j : Json) (s : String) (h : j ≠ Json.str s) :
    j.isStr s = false := by
  cases j <;> simp [Json.isStr]
  intro hs
  exact h (by rw [hs])

theorem classify_perm (data : Dict) (amb : Ambient)
    (hev : getD data "hook_event_name" (Json.str "") = Json.str "PermissionRequest") :
    classify data amb = .permission (permState data amb) := by
  simp [classify, hev, Json.isStr, permState]

theorem permState_status (data : Dict) (amb : Ambient) :
    (getD (permState data amb) "status" Json.null).isStr "waiting_for_approval" = true := by
  simp [permState, baseState, setKey, getD, getKey, Json.isStr]

/-- On the permission path with a working transport, a reply that parses to
`j` makes `main` print exactly what `translate` renders for `j`. -/
theorem main_perm_good (data : Dict) (amb : Ambient) (tcpEnv : Option String)
    (net : NetEnv) (tgt : SockTarget) (j : Json) (docs : List Json)
    (hev : getD data "hook_event_name" (Json.str "") = Json.str "PermissionRequest")
    (htgt : get_socket tcpEnv = .ok tgt)
    (hc : net.connectOk = true) (hs : net.sendOk = true)
    (hr : net.recv = .bytes (.goodJson j))
    (ht : translate (some j) = .ok docs) :
    main (some (Json.obj data)) amb tcpEnv net = .ok ⟨0, docs,
      [.connect tgt TIMEOUT_SECONDS, .send (Json.obj (permState data amb)),
       .recvOp, .close]⟩ := by
  simp only [main]
  unfold mainBody
  rw [classify_perm data amb hev]
  unfold send_event
  rw [htgt]
  simp only [hc, hs, permState_status, if_true, hr, ht]

/-- On the permission path, a read that times out, yields empty bytes, or
yields unparseable text prints nothing and exits successfully. -/
theorem main_perm_noreply (data : Dict) (amb : Ambient) (tcpEnv : Option String)
    (net : NetEnv) (tgt : SockTarget)
    (hev : getD data "hook_event_name" (Json.str "") = Json.str "PermissionRequest")
    (htgt : get_socket tcpEnv = .ok tgt)
    (hc : net.connectOk = true) (hs : net.sendOk = true)
    (hr : net.recv = .err ∨ net.recv = .bytes .empty ∨ net.recv = .bytes .badJson) :
    ∃ tr, main (some (Json.obj data)) amb tcpEnv net = .ok ⟨0, [], tr⟩ := by
  simp only [main]
  unfold mainBody
  rw [classify_perm data amb hev]
  unfold send_event
  rw [htgt]
  simp only [hc, hs, permState_status, if_true]
  rcases hr with hr | hr | hr <;> rw [hr] <;> exact ⟨_, rfl⟩

/-- `translate` on a dict reply, spelled out. -/
theorem translate_obj (fl : Dict) :
    translate (some (Json.obj fl)) =
      if fl.isEmpty then .ok []
      else if (getD fl "decision" (Json.str "ask")).isStr "allow" then .ok [allowDoc]
      else if (getD fl "decision" (Json.str "ask")).isStr "deny" then
        .ok [denyDoc (if (getD fl "reason" (Json.str "")).truthy then
          getD fl "reason" (Json.str "") else Json.str denyDefaultMsg)]
      else .ok [] := by
  cases fl <;> simp [translate, Json.truthy]

theorem takeWhile_no_colon (l r : List Char) (h : ':' ∉ l) :
    (l ++ ':' :: r).takeWhile (fun c => c != ':') = l := by
  induction l with
  | nil => simp [List.takeWhile]
  | cons c cs ih =>
    simp only [List.mem_cons, not_or] at h
    have hc : ¬c = ':' := fun hc => h.1 hc.symm
    simp only [List.cons_append, List.takeWhile_cons]
    rw [if_pos (by simp [hc]), ih h.2]

theorem dropWhile_no_colon (l r : List Char) (h : ':' ∉ l) :
    (l ++ ':' :: r).dropWhile (fun c => c != ':') = ':' :: r := by
  induction l with
  | nil => simp [List.dropWhile]
  | cons c cs ih =>
    simp only [List.mem_cons, not_or] at h
    have hc : ¬c = ':' := fun hc => h.1 hc.symm
    simp only [List.cons_append, List.dropWhile_cons]
    rw [if_pos (by simp [hc]), ih h.2]

/-- `t.rsplit(":", 1)` splits at the last colon: when the part after some
colon has no further colon, that colon is the split point. -/
theorem rsplitColon_eq (hl pl : List Char) (h : ':' ∉ pl) :
    rsplitColon (String.mk (hl ++ ':' :: pl)) = (String.mk hl, String.mk pl) := by
  have h2 : ':' ∉ pl.reverse := by simpa using h
  unfold rsplitColon
  simp only [List.reverse_append, List.reverse_cons, List.append_assoc,
    List.nil_append, List.singleton_append]
  rw [takeWhile_no_colon _ _ h2, dropWhile_no_colon _ _ h2]
  simp

theorem contains_colon (hl pl : List Char) :
    (hl ++ ':' :: pl).contains ':' = true := by
  simp

theorem classify_ups (data : Dict) (amb : Ambient)
    (hev : getD data "hook_event_name" (Json.str "") = Json.str "UserPromptSubmit") :
    classify data amb = .plain (setKey (baseState data amb) "status" (Json.str "processing")) := by
  simp [classify, hev, Json.isStr]

theorem classify_pre (data : Dict) (amb : Ambient)
    (hev : getD data "hook_event_name" (Json.str "") = Json.str "PreToolUse") :
    classify data amb = .plain
      (let st := setKey (setKey (setKey (baseState data amb)
        "status" (Json.str "running_tool"))
        "tool" (getD data "tool_name" Json.null))
        "tool_input" (getD data "tool_input" (Json.obj []));
      if (getD data "tool_use_id" Json.null).truthy then
        setKey st "tool_use_id" (getD data "tool_use_id" Json.null)
      else st) := by
  simp [classify, hev, Json.isStr]

theorem classify_post (data : Dict) (amb : Ambient)
    (hev : getD data "hook_event_name" (Json.str "") = Json.str "PostToolUse") :
    classify data amb = .plain
      (let st := setKey (setKey (setKey (baseState data amb)
        "status" (Json.str "processing"))
        "tool" (getD data "tool_name" Json.null))
        "tool_input" (getD data "tool_input" (Json.obj []));
      if (getD data "tool_use_id" Json.null).truthy then
        setKey st "tool_use_id" (getD data "tool_use_id" Json.null)
      else st) := by
  simp [classify, hev, Json.isStr]

theorem classify_notif_sup (data : Dict) (amb : Ambient)
    (hev : getD data "hook_event_name" (Json.str "") = Json.str "Notification")
    (hnt : getD data "notification_type" Json.null = Json.str "permission_prompt") :
    classify data amb = .suppressed := by
  simp [classify, hev, hnt, Json.isStr]

theorem classify_notif_idle (data : Dict) (amb : Ambient)
    (hev : getD data "hook_event_name" (Json.str "") = Json.str "Notification")
    (hnt : getD data "notification_type" Json.null = Json.str "idle_prompt") :
    classify data amb = .plain
      (setKey (setKey (setKey (baseState data amb) "status" (Json.str "waiting_for_input"))
        "notification_type" (getD data "notification_type" Json.null))
        "message" (getD data "message" Json.null)) := by
  simp [classify, hev, hnt, Json.isStr]

theorem classify_notif_other (data : Dict) (amb : Ambient)
    (hev : getD data "hook_event_name" (Json.str "") = Json.str "Notification")
    (hnt1 : getD data "notification_type" Json.null ≠ Json.str "permission_prompt")
    (hnt2 : getD data "notification_type" Json.null ≠ Json.str "idle_prompt") :
    classify data amb = .plain
      (setKey (setKey (setKey (baseState data amb) "status" (Json.str "notification"))
        "notification_type" (getD data "notification_type" Json.null))
        "message" (getD data "message" Json.null)) := by
  simp only [classify, hev, isStr_false_of_ne _ _ hnt1, isStr_false_of_ne _ _ hnt2]
  simp [Json.isStr]

theorem classify_simple (data : Dict) (amb : Ambient) (ev st : String)
    (hev : getD data "hook_event_name" (Json.str "") = Json.str ev)
    (hmap : (ev = "Stop" ∧ st = "waiting_for_input") ∨
            (ev = "SubagentStop" ∧ st = "waiting_for_input") ∨
            (ev = "SessionStart" ∧ st = "waiting_for_input") ∨
            (ev = "SessionEnd" ∧ st = "ended") ∨
            (ev = "PreCompact" ∧ st = "compacting")) :
    classify data amb = .plain (setKey (baseState data amb) "status" (Json.str st)) := by
  rcases hmap with ⟨he, hs⟩ | ⟨he, hs⟩ | ⟨he, hs⟩ | ⟨he, hs⟩ | ⟨he, hs⟩ <;>
    subst he <;> subst hs <;> simp [classify, hev, Json.isStr]

theorem classify_unknown (data : Dict) (amb : Ambient)
    (hne : ∀ s ∈ recognizedEvents, getD data "hook_event_name" (Json.str "") ≠ Json.str s) :
    classify data amb = .plain (setKey (baseState data amb) "status" (Json.str "unknown")) := by
  have h1 := isStr_false_of_ne _ _ (hne "UserPromptSubmit" (by simp [recognizedEvents]))
  have h2 := isStr_false_of_ne _ _ (hne "PreToolUse" (by simp [recognizedEvents]))
  have h3 := isStr_false_of_ne _ _ (hne "PostToolUse" (by simp [recognizedEvents]))
  have h4 := isStr_false_of_ne _ _ (hne "PermissionRequest" (by simp [recognizedEvents]))
  have h5 := isStr_false_of_ne _ _ (hne "Notification" (by simp [recognizedEvents]))
  have h6 := isStr_false_of_ne _ _ (hne "Stop" (by simp [recognizedEvents]))
  have h7 := isStr_false_of_ne _ _ (hne "SubagentStop" (by simp [recognizedEvents]))
  have h8 := isStr_false_of_ne _ _ (hne "SessionStart" (by simp [recognizedEvents]))
  have h9 := isStr_false_of_ne _ _ (hne "SessionEnd" (by simp [recognizedEvents]))
  have h10 := isStr_false_of_ne _ _ (hne "PreCompact" (by simp [recognizedEvents]))
  simp only [classify, h1, h2, h3, h4, h5, h6, h7, h8, h9, h10]
  simp

theorem sentPayloads_send_event (tcpEnv : Option String) (net : NetEnv) (state : Dict)
    (p : Json) (hp : p ∈ sentPayloads (send_event tcpEnv net state).2) :
    p = Json.obj state := by
  unfold send_event at hp
  cases hg : get_socket tcpEnv with
  | error e => rw [hg] at hp; simp [sentPayloads] at hp
  | ok t =>
    rw [hg] at hp
    obtain ⟨c, s, rcv⟩ := net
    cases c with
    | false => simp [sentPayloads] at hp
    | true =>
      cases s with
      | false => simp [sentPayloads] at hp; exact hp
      | true =>
        by_cases hw : (getD state "status" Json.null).isStr "waiting_for_approval" = true
        · cases rcv with
          | err => simp [hw, sentPayloads] at hp; exact hp
          | bytes b => cases b <;> simp [hw, sentPayloads] at hp <;> exact hp
        · simp [hw, sentPayloads] at hp; exact hp

/-- Every record `classify` produces carries exactly one `status` key,
always carries the three context keys (possibly null-valued), and carries
each status-specific key only under the statuses it belongs to. -/
theorem classify_record_shape (data : Dict) (amb : Ambient) (st : Dict)
    (h : classify data amb = .plain st ∨ classify data amb = .permission st) :
    countKey st "status" = 1 ∧ "tty" ∈ keys st ∧ "remote_host" ∈ keys st ∧
      "tmux_target" ∈ keys st ∧
      ("tool" ∈ keys st → getKey st "status" = some (Json.str "running_tool") ∨
        getKey st "status" = some (Json.str "processing") ∨
        getKey st "status" = some (Json.str "waiting_for_approval")) ∧
      ("tool_input" ∈ keys st → getKey st "status" = some (Json.str "running_tool") ∨
        getKey st "status" = some (Json.str "processing") ∨
        getKey st "status" = some (Json.str "waiting_for_approval")) ∧
      ("tool_use_id" ∈ keys st → getKey st "status" = some (Json.str "running_tool") ∨
        getKey st "status" = some (Json.str "processing")) ∧
      ("notification_type" ∈ keys st → getKey st "status" = some (Json.str "waiting_for_input") ∨
        getKey st "status" = some (Json.str "notification")) ∧
      ("message" ∈ keys st → getKey st "status" = some (Json.str "waiting_for_input") ∨
        getKey st "status" = some (Json.str "notification")) := by
  by_cases h1 : getD data "hook_event_name" (Json.str "") = Json.str "UserPromptSubmit"
  · rw [classify_ups data amb h1] at h
    rcases h with h | h <;> cases h
    simp [setKey, baseState, countKey, keys, getD, getKey]
  by_cases h2 : getD data "hook_event_name" (Json.str "") = Json.str "PreToolUse"
  · rw [classify_pre data amb h2] at h
    rcases h with h | h <;> cases h
    cases ht : (getD data "tool_use_id" Json.null).truthy <;> simp only [ht] <;>
      simp [setKey, baseState, countKey, keys, getD, getKey]
  by_cases h3 : getD data "hook_event_name" (Json.str "") = Json.str "PostToolUse"
  · rw [classify_post data amb h3] at h
    rcases h with h | h <;> cases h
    cases ht : (getD data "tool_use_id" Json.null).truthy <;> simp only [ht] <;>
      simp [setKey, baseState, countKey, keys, getD, getKey]
  by_cases h4 : getD data "hook_event_name" (Json.str "") = Json.str "PermissionRequest"
  · rw [classify_perm data amb h4] at h
    rcases h with h | h <;> cases h
    simp [permState, setKey, baseState, countKey, keys, getD, getKey]
  by_cases h5 : getD data "hook_event_name" (Json.str "") = Json.str "Notification"
  · by_cases hnt1 : getD data "notification_type" Json.null = Json.str "permission_prompt"
    · rw [classify_notif_sup data amb h5 hnt1] at h
      rcases h with h | h <;> cases h
    by_cases hnt2 : getD data "notification_type" Json.null = Json.str "idle_prompt"
    · rw [classify_notif_idle data amb h5 hnt2] at h
      rcases h with h | h <;> cases h
      simp [setKey, baseState, countKey, keys, getD, getKey]
    · rw [classify_notif_other data amb h5 hnt1 hnt2] at h
      rcases h with h | h <;> cases h
      simp [setKey, baseState, countKey, keys, getD, getKey]
  by_cases h6 : getD data "hook_event_name" (Json.str "") = Json.str "Stop"
  · rw [classify_simple data amb "Stop" "waiting_for_input" h6 (Or.inl ⟨rfl, rfl⟩)] at h
    rcases h with h | h <;> cases h
    simp [setKey, baseState, countKey, keys, getD, getKey]
  by_cases h7 : getD data "hook_event_name" (Json.str "") = Json.str "SubagentStop"
  · rw [classify_simple data amb "SubagentStop" "waiting_for_input" h7
      (Or.inr (Or.inl ⟨rfl, rfl⟩))] at h
    rcases h with h | h <;> cases h
    simp [setKey, baseState, countKey, keys, getD, getKey]
  by_cases h8 : getD data "hook_event_name" (Json.str "") = Json.str "SessionStart"
  · rw [classify_simple data amb "SessionStart" "waiting_for_input" h8
      (Or.inr (Or.inr (Or.inl ⟨rfl, rfl⟩)))] at h
    rcases h with h | h <;> cases h
    simp [setKey, baseState, countKey, keys, getD, getKey]
  by_cases h9 : getD data "hook_event_name" (Json.str "") = Json.str "SessionEnd"
  · rw [classify_simple data amb "SessionEnd" "ended" h9
      (Or.inr (Or.inr (Or.inr (Or.inl ⟨rfl, rfl⟩))))] at h
    rcases h with h | h <;> cases h
    simp [setKey, baseState, countKey, keys, getD, getKey]
  by_cases h10 : getD data "hook_event_name" (Json.str "") = Json.str "PreCompact"
  · rw [classify_simple data amb "PreCompact" "compacting" h10
      (Or.inr (Or.inr (Or.inr (Or.inr ⟨rfl, rfl⟩))))] at h
    rcases h with h | h <;> cases h
    simp [setKey, baseState, countKey, keys, getD, getKey]
  · have hne : ∀ s ∈ recognizedEvents, getD data "hook_event_name" (Json.str "") ≠ Json.str s := by
      intro s hs
      simp only [recognizedEvents, List.mem_cons, List.not_mem_nil, or_false] at hs
      rcases hs with rfl | rfl | rfl | rfl | rfl | rfl | rfl | rfl | rfl | rfl <;> assumption
    rw [classify_unknown data amb hne] at h
    rcases h with h | h <;> cases h
    simp [setKey, baseState, countKey, keys, getD, getKey]

/-! ## Claims -/

/-- Claim C1 (amended): for each recognized event tag the classifier attaches
exactly the status of the §4.2 table and exactly the listed extra fields
(witnessed by the record's full key list), and any unrecognized tag maps to
status `unknown`; the one amendment is that `tool_use_id` is copied for
`PreToolUse`/`PostToolUse` only when it is present *and truthy* (Python
`if tool_use_id_from_event:`), not merely present. -/
theorem claim_C1 (data : Dict) (amb : Ambient) :
    (getD data "hook_event_name" (Json.str "") = Json.str "UserPromptSubmit" →
      ∃ st, classify data amb = .plain st ∧
        getKey st "status" = some (Json.str "processing") ∧
        keys st = baseKeys ++ ["status"]) ∧
    (getD data "hook_event_name" (Json.str "") = Json.str "PreToolUse" →
      ∃ st, classify data amb = .plain st ∧
        getKey st "status" = some (Json.str "running_tool") ∧
        getKey st "tool" = some (getD data "tool_name" Json.null) ∧
        getKey st "tool_input" = some (getD data "tool_input" (Json.obj [])) ∧
        ((getD data "tool_use_id" Json.null).truthy = true →
          getKey st "tool_use_id" = some (getD data "tool_use_id" Json.null)) ∧
        ((getD data "tool_use_id" Json.null).truthy = false →
          getKey st "tool_use_id" = none) ∧
        keys st = baseKeys ++ ["status", "tool", "tool_input"] ++
          (if (getD data "tool_use_id" Json.null).truthy then ["tool_use_id"] else [])) ∧
    (getD data "hook_event_name" (Json.str "") = Json.str "PostToolUse" →
      ∃ st, classify data amb = .plain st ∧
        getKey st "status" = some (Json.str "processing") ∧
        getKey st "tool" = some (getD data "tool_name" Json.null) ∧
        getKey st "tool_input" = some (getD data "tool_input" (Json.obj [])) ∧
        ((getD data "tool_use_id" Json.null).truthy = true →
          getKey st "tool_use_id" = some (getD data "tool_use_id" Json.null)) ∧
        ((getD data "tool_use_id" Json.null).truthy = false →
          getKey st "tool_use_id" = none) ∧
        keys st = baseKeys ++ ["status", "tool", "tool_input"] ++
          (if (getD data "tool_use_id" Json.null).truthy then ["tool_use_id"] else [])) ∧
    (getD data "hook_event_name" (Json.str "") = Json.str "PermissionRequest" →
      ∃ st, classify data amb = .permission st ∧
        getKey st "status" = some (Json.str "waiting_for_approval") ∧
        getKey st "tool" = some (getD data "tool_name" Json.null) ∧
        getKey st "tool_input" = some (getD data "tool_input" (Json.obj [])) ∧
        keys st = baseKeys ++ ["status", "tool", "tool_input"]) ∧
    (getD data "hook_event_name" (Json.str "") = Json.str "Notification" →
      getD data "notification_type" Json.null = Json.str "permission_prompt" →
      classify data amb = .suppressed) ∧
    (getD data "hook_event_name" (Json.str "") = Json.str "Notification" →
      getD data "notification_type" Json.null = Json.str "idle_prompt" →
      ∃ st, classify data amb = .plain st ∧
        getKey st "status" = some (Json.str "waiting_for_input") ∧
        getKey st "notification_type" = some (getD data "notification_type" Json.null) ∧
        getKey st "message" = some (getD data "message" Json.null) ∧
        keys st = baseKeys ++ ["status", "notification_type", "message"]) ∧
    (getD data "hook_event_name" (Json.str "") = Json.str "Notification" →
      getD data "notification_type" Json.null ≠ Json.str "permission_prompt" →
      getD data "notification_type" Json.null ≠ Json.str "idle_prompt" →
      ∃ st, classify data amb = .plain st ∧
        getKey st "status" = some (Json.str "notification") ∧
        getKey st "notification_type" = some (getD data "notification_type" Json.null) ∧
        getKey st "message" = some (getD data "message" Json.null) ∧
        keys st = baseKeys ++ ["status", "notification_type", "message"]) ∧
    (getD data "hook_event_name" (Json.str "") = Json.str "Stop" →
      ∃ st, classify data amb = .plain st ∧
        getKey st "status" = some (Json.str "waiting_for_input") ∧
        keys st = baseKeys ++ ["status"]) ∧
    (getD data "hook_event_name" (Json.str "") = Json.str "SubagentStop" →
      ∃ st, classify data amb = .plain st ∧
        getKey st "status" = some (Json.str "waiting_for_input") ∧
        keys st = baseKeys ++ ["status"]) ∧
    (getD data "hook_event_name" (Json.str "") = Json.str "SessionStart" →
      ∃ st, classify data amb = .plain st ∧
        getKey st "status" = some (Json.str "waiting_for_input") ∧
        keys st = baseKeys ++ ["status"]) ∧
    (getD data "hook_event_name" (Json.str "") = Json.str "SessionEnd" →
      ∃ st, classify data amb = .plain st ∧
        getKey st "status" = some (Json.str "ended") ∧
        keys st = baseKeys ++ ["status"]) ∧
    (getD data "hook_event_name" (Json.str "") = Json.str "PreCompact" →
      ∃ st, classify data amb = .plain st ∧
        getKey st "status" = some (Json.str "compacting") ∧
        keys st = baseKeys ++ ["status"]) ∧
    ((∀ s ∈ recognizedEvents, getD data "hook_event_name" (Json.str "") ≠ Json.str s) →
      ∃ st, classify data amb = .plain st ∧
        getKey st "status" = some (Json.str "unknown") ∧
        keys st = baseKeys ++ ["status"]) := by
  refine ⟨?_, ?_, ?_, ?_, ?_, ?_, ?_, ?_, ?_, ?_, ?_, ?_, ?_⟩
  · intro hev
    refine ⟨_, classify_ups data amb hev, ?_, ?_⟩ <;>
      simp [setKey, baseState, getD, getKey, keys, baseKeys]
  · intro hev
    refine ⟨_, classify_pre data amb hev, ?_⟩
    cases ht : (getD data "tool_use_id" Json.null).truthy <;> simp only [ht] <;>
      simp [setKey, baseState, getD, getKey, keys, baseKeys]
  · intro hev
    refine ⟨_, classify_post data amb hev, ?_⟩
    cases ht : (getD data "tool_use_id" Json.null).truthy <;> simp only [ht] <;>
      simp [setKey, baseState, getD, getKey, keys, baseKeys]
  · intro hev
    refine ⟨_, classify_perm data amb hev, ?_⟩
    simp [permState, setKey, baseState, getD, getKey, keys, baseKeys]
  · intro hev hnt
    exact classify_notif_sup data amb hev hnt
  · intro hev hnt
    refine ⟨_, classify_notif_idle data amb hev hnt, ?_⟩
    simp [setKey, baseState, getD, getKey, keys, baseKeys]
  · intro hev hnt1 hnt2
    refine ⟨_, classify_notif_other data amb hev hnt1 hnt2, ?_⟩
    simp [setKey, baseState, getD, getKey, keys, baseKeys]
  · intro hev
    refine ⟨_, classify_simple data amb "Stop" "waiting_for_input" hev (Or.inl ⟨rfl, rfl⟩), ?_⟩
    simp [setKey, baseState, getD, getKey, keys, baseKeys]
  · intro hev
    refine ⟨_, classify_simple data amb "SubagentStop" "waiting_for_input" hev
      (Or.inr (Or.inl ⟨rfl, rfl⟩)), ?_⟩
    simp [setKey, baseState, getD, getKey, keys, baseKeys]
  · intro hev
    refine ⟨_, classify_simple data amb "SessionStart" "waiting_for_input" hev
      (Or.inr (Or.inr (Or.inl ⟨rfl, rfl⟩))), ?_⟩
    simp [setKey, baseState, getD, getKey, keys, baseKeys]
  · intro hev
    refine ⟨_, classify_simple data amb "SessionEnd" "ended" hev
      (Or.inr (Or.inr (Or.inr (Or.inl ⟨rfl, rfl⟩)))), ?_⟩
    simp [setKey, baseState, getD, getKey, keys, baseKeys]
  · intro hev
    refine ⟨_, classify_simple data amb "PreCompact" "compacting" hev
      (Or.inr (Or.inr (Or.inr (Or.inr ⟨rfl, rfl⟩)))), ?_⟩
    simp [setKey, baseState, getD, getKey, keys, baseKeys]
  · intro hne
    refine ⟨_, classify_unknown data amb hne, ?_⟩
    simp [setKey, baseState, getD, getKey, keys, baseKeys]

/-- Claim C1 is false as stated: in `c1data` the input field `tool_use_id`
is present (with value `""`), yet the classified `PreToolUse` record
`c1rec` omits the `tool_use_id` key, because the code copies it only when
truthy. -/
theorem claim_C1_counterexample :
    getKey c1data "tool_use_id" = some (Json.str "") ∧
    classify c1data c1amb = .plain c1rec ∧
    getKey c1rec "tool_use_id" = none :=
  ⟨rfl, rfl, rfl⟩

/-- Witness for claim C1: the `PreToolUse` conjunct at a concrete input
with a truthy `tool_use_id`. -/
theorem claim_C1_witness :
    classify c1wdata c1amb = .plain c1wrec ∧
    getKey c1wrec "status" = some (Json.str "running_tool") ∧
    getKey c1wrec "tool_use_id" = some (Json.str "t1") := by
  obtain ⟨st, h1, h2, h3, h4, h5, h6, h7⟩ := (claim_C1 c1wdata c1amb).2.1 rfl
  have hst : Classified.plain st = Classified.plain c1wrec :=
    h1.symm.trans (rfl : classify c1wdata c1amb = .plain c1wrec)
  cases hst
  exact ⟨rfl, h2, h5 rfl⟩

/-- Claim C2: on the permission path with a working transport, an allow
reply prints exactly one allow directive and exits 0; a deny reply with a
truthy reason prints one deny directive carrying that reason; a deny reply
whose `reason` key is absent prints the fixed default message; no reply,
empty bytes, an empty reply object, or any other decision prints nothing
and exits 0. -/
theorem claim_C2 (data : Dict) (amb : Ambient) (tcpEnv : Option String)
    (net : NetEnv) (tgt : SockTarget)
    (hev : getD data "hook_event_name" (Json.str "") = Json.str "PermissionRequest")
    (htgt : get_socket tcpEnv = .ok tgt)
    (hc : net.connectOk = true) (hs : net.sendOk = true) :
    (∀ fl, net.recv = .bytes (.goodJson (Json.obj fl)) →
      getD fl "decision" (Json.str "ask") = Json.str "allow" →
      ∃ tr, main (some (Json.obj data)) amb tcpEnv net = .ok ⟨0, [allowDoc], tr⟩) ∧
    (∀ fl rr, net.recv = .bytes (.goodJson (Json.obj fl)) →
      getD fl "decision" (Json.str "ask") = Json.str "deny" →
      getD fl "reason" (Json.str "") = rr → rr.truthy = true →
      ∃ tr, main (some (Json.obj data)) amb tcpEnv net = .ok ⟨0, [denyDoc rr], tr⟩) ∧
    (∀ fl, net.recv = .bytes (.goodJson (Json.obj fl)) →
      getD fl "decision" (Json.str "ask") = Json.str "deny" →
      getKey fl "reason" = none →
      ∃ tr, main (some (Json.obj data)) amb tcpEnv net
        = .ok ⟨0, [denyDoc (Json.str denyDefaultMsg)], tr⟩) ∧
    (net.recv = .err ∨ net.recv = .bytes .empty ∨ net.recv = .bytes (.goodJson (Json.obj [])) →
      ∃ tr, main (some (Json.obj data)) amb tcpEnv net = .ok ⟨0, [], tr⟩) ∧
    (∀ fl d, net.recv = .bytes (.goodJson (Json.obj fl)) →
      getD fl "decision" (Json.str "ask") = d →
      d ≠ Json.str "allow" → d ≠ Json.str "deny" →
      ∃ tr, main (some (Json.obj data)) amb tcpEnv net = .ok ⟨0, [], tr⟩) := by
  refine ⟨?_, ?_, ?_, ?_, ?_⟩
  · intro fl hr hd
    cases fl with
    | nil => simp [getD_nil] at hd
    | cons p fl' =>
      refine ⟨_, main_perm_good data amb tcpEnv net tgt _ _ hev htgt hc hs hr ?_⟩
      rw [translate_obj]
      simp [hd, Json.isStr]
  · intro fl rr hr hd hrr htr
    cases fl with
    | nil => simp [getD_nil] at hd
    | cons p fl' =>
      refine ⟨_, main_perm_good data amb tcpEnv net tgt _ _ hev htgt hc hs hr ?_⟩
      rw [translate_obj]
      simp [hd, hrr, htr, Json.isStr]
  · intro fl hr hd hno
    cases fl with
    | nil => simp [getD_nil] at hd
    | cons p fl' =>
      refine ⟨_, main_perm_good data amb tcpEnv net tgt _ _ hev htgt hc hs hr ?_⟩
      rw [translate_obj]
      have hre : getD (p :: fl') "reason" (Json.str "") = Json.str "" := by
        simp [getD, hno]
      simp [hd, hre, Json.isStr, Json.truthy]
  · intro h
    rcases h with h | h | h
    · exact main_perm_noreply data amb tcpEnv net tgt hev htgt hc hs (Or.inl h)
    · exact main_perm_noreply data amb tcpEnv net tgt hev htgt hc hs (Or.inr (Or.inl h))
    · refine ⟨_, main_perm_good data amb tcpEnv net tgt _ _ hev htgt hc hs h ?_⟩
      rw [translate_obj]
      simp
  · intro fl d hr hd hna hnd
    subst hd
    refine ⟨_, main_perm_good data amb tcpEnv net tgt _ _ hev htgt hc hs hr ?_⟩
    rw [translate_obj, isStr_false_of_ne _ _ hna, isStr_false_of_ne _ _ hnd]
    simp

/-- Witness for claim C2: a concrete allow reply produces exactly the allow
directive and exit status 0. -/
theorem claim_C2_witness :
    main (some (Json.obj c2wdata)) c1amb none c2wnet = .ok ⟨0, [allowDoc],
      [.connect (.unix SOCKET_PATH) TIMEOUT_SECONDS, .send (Json.obj c2wrec),
       .recvOp, .close]⟩ := by
  obtain ⟨tr, h⟩ := (claim_C2 c2wdata c1amb none c2wnet (.unix SOCKET_PATH)
    rfl rfl rfl rfl).1 [("decision", Json.str "allow")] rfl rfl
  exact rfl

/-- Claim C3 is false as stated: a malformed port string in
`CLAUDE_ISLAND_TCP` makes `int(port_str)` raise `ValueError`, which the
`except (socket.error, OSError, json.JSONDecodeError)` clause does not
catch, so `send_event` raises instead of returning "no reply" (and no
socket operation happens). -/
theorem claim_C3_counterexample :
    (send_event (some "abc") ⟨true, true, .err⟩ []).1 = .error .valueError ∧
    (send_event (some "abc") ⟨true, true, .err⟩ []).2 = [] :=
  ⟨rfl, rfl⟩

/-- Claim C3 (amended): provided the transport target parses (no
`ValueError` from `int()`) and the reply bytes are not invalid UTF-8 (no
uncaught `UnicodeDecodeError`), `send_event` never raises: it returns
`.ok`, and each failure mode — connection failure, send failure, receive
failure/timeout, and unparseable reply JSON — is normalized to the
no-reply result `none`. -/
theorem claim_C3 (tcpEnv : Option String) (net : NetEnv) (state : Dict) (tgt : SockTarget)
    (htgt : get_socket tcpEnv = .ok tgt)
    (hb : net.recv ≠ .bytes .badUtf8) :
    (∃ r, (send_event tcpEnv net state).1 = .ok r) ∧
    (net.connectOk = false → (send_event tcpEnv net state).1 = .ok none) ∧
    (net.sendOk = false → (send_event tcpEnv net state).1 = .ok none) ∧
    (net.recv = .err → (send_event tcpEnv net state).1 = .ok none) ∧
    (net.recv = .bytes .empty → (send_event tcpEnv net state).1 = .ok none) ∧
    (net.recv = .bytes .badJson → (send_event tcpEnv net state).1 = .ok none) := by
  unfold send_event
  rw [htgt]
  obtain ⟨c, s, rcv⟩ := net
  simp only at hb ⊢
  cases c with
  | false => simp
  | true =>
    cases s with
    | false => simp
    | true =>
      by_cases hw : (getD state "status" Json.null).isStr "waiting_for_approval" = true
      · cases rcv with
        | err => simp [hw]
        | bytes b =>
          cases b with
          | empty => simp [hw]
          | badUtf8 => simp at hb
          | badJson => simp [hw]
          | goodJson j => simp [hw]
      · simp [hw]

/-- Witness for claim C3: a refused connection on the Unix path is
normalized to no reply. -/
theorem claim_C3_witness :
    (send_event none ⟨false, true, .err⟩ c1rec).1 = .ok none :=
  (claim_C3 none ⟨false, true, .err⟩ c1rec (.unix SOCKET_PATH) rfl
    (by simp)).2.1 rfl

/-- Claim C4: with an established connection and a successful send, a
non-`waiting_for_approval` record causes exactly one write and zero reads
(the trace is connect–send–close); a `waiting_for_approval` record causes
exactly one write followed by exactly one read, and a read that yields
nothing (timeout/disconnect) makes the outcome "no reply", deferring to
the caller's default. -/
theorem claim_C4 (tcpEnv : Option String) (net : NetEnv) (state : Dict) (tgt : SockTarget)
    (htgt : get_socket tcpEnv = .ok tgt)
    (hc : net.connectOk = true) (hs : net.sendOk = true) :
    ((getD state "status" Json.null).isStr "waiting_for_approval" = false →
      (send_event tcpEnv net state).2
        = [.connect tgt TIMEOUT_SECONDS, .send (Json.obj state), .close] ∧
      countSends (send_event tcpEnv net state).2 = 1 ∧
      countRecvs (send_event tcpEnv net state).2 = 0) ∧
    ((getD state "status" Json.null).isStr "waiting_for_approval" = true →
      ((send_event tcpEnv net state).2
          = [.connect tgt TIMEOUT_SECONDS, .send (Json.obj state), .recvOp] ∨
       (send_event tcpEnv net state).2
          = [.connect tgt TIMEOUT_SECONDS, .send (Json.obj state), .recvOp, .close]) ∧
      countSends (send_event tcpEnv net state).2 = 1 ∧
      countRecvs (send_event tcpEnv net state).2 = 1 ∧
      (net.recv = .err → (send_event tcpEnv net state).1 = .ok none)) := by
  unfold send_event
  rw [htgt]
  obtain ⟨c, s, rcv⟩ := net
  subst hc
  subst hs
  constructor
  · intro hw
    simp [hw, countSends, countRecvs, isSend, isRecv]
  · intro hw
    cases rcv with
    | err => simp [hw, countSends, countRecvs, isSend, isRecv]
    | bytes b => cases b <;> simp [hw, countSends, countRecvs, isSend, isRecv]

/-- Witness for claim C4: a permission record over a transport whose read
times out gives one write, one read, and no reply. -/
theorem claim_C4_witness :
    countSends (send_event none ⟨true, true, .err⟩ c8state).2 = 1 ∧
    countRecvs (send_event none ⟨true, true, .err⟩ c8state).2 = 1 ∧
    (send_event none ⟨true, true, .err⟩ c8state).1 = .ok none := by
  have h := (claim_C4 none ⟨true, true, .err⟩ c8state (.unix SOCKET_PATH) rfl rfl rfl).2 rfl
  exact ⟨h.2.1, h.2.2.1, h.2.2.2 rfl⟩

/-- Claim C5: a `Notification` event with `notification_type ==
permission_prompt` is suppressed: the run performs no socket operation at
all, prints nothing, and exits 0 immediately. -/
theorem claim_C5 (data : Dict) (amb : Ambient) (tcpEnv : Option String) (net : NetEnv)
    (hev : getD data "hook_event_name" (Json.str "") = Json.str "Notification")
    (hnt : getD data "notification_type" Json.null = Json.str "permission_prompt") :
    main (some (Json.obj data)) amb tcpEnv net = .ok ⟨0, [], []⟩ := by
  simp [main, mainBody, classify, hev, hnt, Json.isStr]

/-- Witness for claim C5 at a concrete suppressed notification. -/
theorem claim_C5_witness :
    main (some (Json.obj [("hook_event_name", Json.str "Notification"),
      ("notification_type", Json.str "permission_prompt")])) c1amb none
      ⟨true, true, .err⟩ = .ok ⟨0, [], []⟩ :=
  claim_C5 [("hook_event_name", Json.str "Notification"),
    ("notification_type", Json.str "permission_prompt")] c1amb none
    ⟨true, true, .err⟩ rfl rfl

/-- Claim C6: standard input that is not valid JSON exits with status 1
having performed no socket operation; any input that does parse never
takes the parse-error branch — a JSON object runs the event dispatch, and
every normally-completed run exits 0, never 1. -/
theorem claim_C6 :
    (∀ amb tcpEnv net, main none amb tcpEnv net = .ok ⟨1, [], []⟩) ∧
    (∀ data amb tcpEnv net,
      main (some (Json.obj data)) amb tcpEnv net = mainBody data amb tcpEnv net) ∧
    (∀ j amb tcpEnv net r, main (some j) amb tcpEnv net = .ok r → r.exitCode = 0) := by
  refine ⟨fun _ _ _ => rfl, fun _ _ _ _ => rfl, ?_⟩
  intro j amb tcpEnv net r h
  cases j <;> simp only [main] at h
  case obj data =>
    unfold mainBody at h
    split at h
    · cases h; rfl
    · split at h
      · exact absurd h (by simp)
      · split at h
        · exact absurd h (by simp)
        · cases h; rfl
    · split at h
      · exact absurd h (by simp)
      · cases h; rfl
  all_goals exact absurd h (by simp)

/-- Witness for claim C6: a parsed `Stop` event over an unreachable
transport still exits 0. -/
theorem claim_C6_witness :
    (⟨0, [], [SockOp.connect (.unix SOCKET_PATH) TIMEOUT_SECONDS]⟩ : MainResult).exitCode = 0 :=
  claim_C6.2.2 (Json.obj c9data) c9amb none ⟨false, true, .err⟩
    ⟨0, [], [SockOp.connect (.unix SOCKET_PATH) TIMEOUT_SECONDS]⟩ rfl

/-- Claim C7 is false as stated: `CLAUDE_ISLAND_TCP` set to the empty
string is "set with no colon", so the claim prescribes a TCP target with
the whole value as port, but the code's truthiness test sends it to the
Unix socket path exactly as if the variable were unset. -/
theorem claim_C7_counterexample :
    get_socket (some "") = .ok (.unix SOCKET_PATH) ∧
    get_socket none = .ok (.unix SOCKET_PATH) :=
  ⟨rfl, rfl⟩

/-- Claim C7 (amended): for a *non-empty* `CLAUDE_ISLAND_TCP`, a value
with a colon is split at the last colon into host and port, a value
without a colon is the port with host `localhost` (`"9999"` →
`localhost:9999`, `"host:9999"` → `host:9999`); when the variable is
unset — or set to the empty string, which the code treats as unset — the
connection goes to the fixed Unix-socket path; and every connection made
by `send_event` carries the 300-second timeout. -/
theorem claim_C7 :
    (∀ hl pl : List Char, ':' ∉ pl → ∀ n : Int, pyInt (String.mk pl) = some n →
      get_socket (some (String.mk (hl ++ ':' :: pl))) = .ok (.tcp (String.mk hl) n)) ∧
    (∀ v : String, v.data ≠ [] → v.data.contains ':' = false → ∀ n : Int,
      pyInt v = some n → get_socket (some v) = .ok (.tcp "localhost" n)) ∧
    get_socket (some "9999") = .ok (.tcp "localhost" 9999) ∧
    get_socket (some "host:9999") = .ok (.tcp "host" 9999) ∧
    get_socket none = .ok (.unix SOCKET_PATH) ∧
    TIMEOUT_SECONDS = 300 ∧
    (∀ tcpEnv net state tgt tmo,
      SockOp.connect tgt tmo ∈ (send_event tcpEnv net state).2 → tmo = TIMEOUT_SECONDS) := by
  refine ⟨?_, ?_, rfl, rfl, rfl, rfl, ?_⟩
  · intro hl pl hnc n hn
    have h1 : (String.mk (hl ++ ':' :: pl)).data.isEmpty = false := by simp
    have h2 : (String.mk (hl ++ ':' :: pl)).data.contains ':' = true := by simp
    simp [get_socket, h1, h2, rsplitColon_eq hl pl hnc, hn]
  · intro v hv hnc n hn
    have h1 : v.data.isEmpty = false := by simpa using hv
    have h2 : ':' ∉ v.data := by simpa using hnc
    simp [get_socket, h1, h2, hn]
  · intro tcpEnv net state tgt tmo hmem
    unfold send_event at hmem
    cases hg : get_socket tcpEnv with
    | error e => rw [hg] at hmem; simp at hmem
    | ok t =>
      rw [hg] at hmem
      obtain ⟨c, s, rcv⟩ := net
      cases c with
      | false => simp at hmem; exact hmem.2
      | true =>
        cases s with
        | false => simp at hmem; exact hmem.2
        | true =>
          by_cases hw : (getD state "status" Json.null).isStr "waiting_for_approval" = true
          · cases rcv with
            | err => simp [hw] at hmem; exact hmem.2
            | bytes b => cases b <;> simp [hw] at hmem <;> exact hmem.2
          · simp [hw] at hmem; exact hmem.2

/-- Witness for claim C7: the host-and-port conjunct at `"host:9999"`
built explicitly as characters. -/
theorem claim_C7_witness :
    get_socket (some (String.mk (['h', 'o', 's', 't'] ++ ':' :: ['9', '9', '9', '9'])))
      = .ok (.tcp (String.mk ['h', 'o', 's', 't']) 9999) :=
  claim_C7.1 ['h', 'o', 's', 't'] ['9', '9', '9', '9'] (by decide) 9999 rfl

/-- Claim C8 is false as stated: when the bounded read raises (here: the
timeout expiring, modelled as `recv = .err`), the exception jumps past
`sock.close()` straight to the `except` clause, so `send_event` returns
with the connection never closed — the trace is connect–send–recv with no
close operation. -/
theorem claim_C8_counterexample :
    (send_event none ⟨true, true, .err⟩ c8state).2 =
      [.connect (.unix SOCKET_PATH) TIMEOUT_SECONDS, .send (Json.obj c8state), .recvOp] ∧
    countClose (send_event none ⟨true, true, .err⟩ c8state).2 = 0 :=
  ⟨rfl, rfl⟩

/-- Claim C8 (amended): with an established connection, the socket is
closed exactly once on the paths whose I/O completes — a fire-and-forget
send that succeeds, or a permission exchange whose read returns bytes
(even empty or unparseable ones) — but when `sendall` raises, or the
permission-path read raises (timeout or disconnect), the `close` call is
skipped and the connection is left to process-exit cleanup. -/
theorem claim_C8 (tcpEnv : Option String) (net : NetEnv) (state : Dict) (tgt : SockTarget)
    (htgt : get_socket tcpEnv = .ok tgt)
    (hc : net.connectOk = true) :
    (net.sendOk = true →
      ((getD state "status" Json.null).isStr "waiting_for_approval" = false →
        countClose (send_event tcpEnv net state).2 = 1) ∧
      (∀ b, net.recv = .bytes b → countClose (send_event tcpEnv net state).2 = 1)) ∧
    (net.sendOk = false → countClose (send_event tcpEnv net state).2 = 0) ∧
    (net.sendOk = true → (getD state "status" Json.null).isStr "waiting_for_approval" = true →
      net.recv = .err → countClose (send_event tcpEnv net state).2 = 0) := by
  unfold send_event
  rw [htgt]
  obtain ⟨c, s, rcv⟩ := net
  subst hc
  refine ⟨?_, ?_, ?_⟩
  · intro hs
    subst hs
    constructor
    · intro hw
      simp [hw, countClose, isClose]
    · intro b hrcv
      simp only at hrcv
      subst hrcv
      by_cases hw : (getD state "status" Json.null).isStr "waiting_for_approval" = true
      · cases b <;> simp [hw, countClose, isClose]
      · simp [hw, countClose, isClose]
  · intro hs
    subst hs
    simp [countClose, isClose]
  · intro hs hw hrcv
    subst hs
    simp only at hrcv
    subst hrcv
    simp [hw, countClose, isClose]

/-- Witness for claim C8: a permission exchange whose read returns empty
bytes closes the socket exactly once. -/
theorem claim_C8_witness :
    countClose (send_event none ⟨true, true, .bytes .empty⟩ c8state).2 = 1 :=
  ((claim_C8 none ⟨true, true, .bytes .empty⟩ c8state (.unix SOCKET_PATH) rfl rfl).1
    rfl).2 .empty rfl

/-- Claim C9 is false as stated: the base record always carries the keys
`tty`, `remote_host` and `tmux_target`, null-filled when the probes found
nothing — the sent `Stop` record `c9rec` has all three present with value
`null` rather than omitted. -/
theorem claim_C9_counterexample :
    main (some (Json.obj c9data)) c9amb none ⟨true, true, .err⟩ =
      .ok ⟨0, [], [.connect (.unix SOCKET_PATH) TIMEOUT_SECONDS,
        .send (Json.obj c9rec), .close]⟩ ∧
    getKey c9rec "tty" = some Json.null ∧
    getKey c9rec "remote_host" = some Json.null ∧
    getKey c9rec "tmux_target" = some Json.null :=
  ⟨rfl, rfl, rfl, rfl⟩

/-- Claim C9 (amended): every record a completed run writes to the socket
carries exactly one `status` key, and the status-specific fields appear
only for the statuses they belong to — `tool` and `tool_input` only on
`running_tool`/`processing`/`waiting_for_approval` records, `tool_use_id`
only on `running_tool`/`processing` records, `notification_type` and
`message` only on `waiting_for_input`/`notification` records — but the
context fields `tty`, `remote_host` and `tmux_target` are always present
(null-filled when unavailable) rather than omitted. -/
theorem claim_C9 (data : Dict) (amb : Ambient) (tcpEnv : Option String)
    (net : NetEnv) (r : MainResult)
    (h : main (some (Json.obj data)) amb tcpEnv net = .ok r) :
    ∀ p ∈ sentPayloads r.trace, ∃ st, p = Json.obj st ∧ countKey st "status" = 1 ∧
      "tty" ∈ keys st ∧ "remote_host" ∈ keys st ∧ "tmux_target" ∈ keys st ∧
      ("tool" ∈ keys st → getKey st "status" = some (Json.str "running_tool") ∨
        getKey st "status" = some (Json.str "processing") ∨
        getKey st "status" = some (Json.str "waiting_for_approval")) ∧
      ("tool_input" ∈ keys st → getKey st "status" = some (Json.str "running_tool") ∨
        getKey st "status" = some (Json.str "processing") ∨
        getKey st "status" = some (Json.str "waiting_for_approval")) ∧
      ("tool_use_id" ∈ keys st → getKey st "status" = some (Json.str "running_tool") ∨
        getKey st "status" = some (Json.str "processing")) ∧
      ("notification_type" ∈ keys st → getKey st "status" = some (Json.str "waiting_for_input") ∨
        getKey st "status" = some (Json.str "notification")) ∧
      ("message" ∈ keys st → getKey st "status" = some (Json.str "waiting_for_input") ∨
        getKey st "status" = some (Json.str "notification")) := by
  intro p hp
  simp only [main] at h
  unfold mainBody at h
  cases hcl : classify data amb with
  | suppressed =>
    rw [hcl] at h
    cases h
    simp [sentPayloads] at hp
  | permission st =>
    rw [hcl] at h
    simp only [] at h
    rcases hse : send_event tcpEnv net st with ⟨res, tr⟩
    rw [hse] at h
    cases res with
    | error e => simp at h
    | ok response =>
      simp only [] at h
      cases ht : translate response with
      | error e => rw [ht] at h; simp at h
      | ok docs =>
        rw [ht] at h
        cases h
        have hpay : p = Json.obj st :=
          sentPayloads_send_event tcpEnv net st p (by rw [hse]; exact hp)
        exact ⟨st, hpay, classify_record_shape data amb st (Or.inr hcl)⟩
  | plain st =>
    rw [hcl] at h
    simp only [] at h
    rcases hse : send_event tcpEnv net st with ⟨res, tr⟩
    rw [hse] at h
    cases res with
    | error e => simp at h
    | ok response =>
      simp only [] at h
      cases h
      have hpay : p = Json.obj st :=
        sentPayloads_send_event tcpEnv net st p (by rw [hse]; exact hp)
      exact ⟨st, hpay, classify_record_shape data amb st (Or.inl hcl)⟩

/-- Witness for claim C9 at two concrete runs: the `Stop` record (no
status-specific keys), and the `PreToolUse` record `c1wrec`, whose
`tool_use_id` key forces the `running_tool` status through the theorem's
status-specific clause. -/
theorem claim_C9_witness :
    countKey c9rec "status" = 1 ∧ "tty" ∈ keys c9rec ∧
    countKey c1wrec "status" = 1 ∧
    getKey c1wrec "status" = some (Json.str "running_tool") := by
  obtain ⟨st, hst, h1, h2, h3, h4, h5, h6, h7, h8, h9⟩ :=
    claim_C9 c9data c9amb none ⟨true, true, .err⟩
    ⟨0, [], [.connect (.unix SOCKET_PATH) TIMEOUT_SECONDS, .send (Json.obj c9rec), .close]⟩
    rfl (Json.obj c9rec) (by simp [sentPayloads])
  have hob : Json.obj c9rec = Json.obj st := hst
  cases hob
  obtain ⟨st2, hst2, k1, k2, k3, k4, k5, k6, k7, k8, k9⟩ :=
    claim_C9 c1wdata c1amb none ⟨true, true, .err⟩
    ⟨0, [], [.connect (.unix SOCKET_PATH) TIMEOUT_SECONDS, .send (Json.obj c1wrec), .close]⟩
    rfl (Json.obj c1wrec) (by simp [sentPayloads])
  have hob2 : Json.obj c1wrec = Json.obj st2 := hst2
  cases hob2
  have hd := k7 (by simp [keys, c1wrec])
  rcases hd with hd | hd
  · exact ⟨h1, h2, k1, hd⟩
  · simp [c1wrec, getKey] at hd

/-- Claim C10: a deny reply whose `reason` field is present but empty gets
the fixed default message "Denied by user via ClaudeIsland", exactly as an
absent reason does (Python `reason or default`), and the deny directive's
message is never the empty string. -/
theorem claim_C10 (fl : Dict)
    (hd : getD fl "decision" (Json.str "ask") = Json.str "deny") :
    (getD fl "reason" (Json.str "") = Json.str "" →
      translate (some (Json.obj fl)) = .ok [denyDoc (Json.str denyDefaultMsg)]) ∧
    (∃ m, translate (some (Json.obj fl)) = .ok [denyDoc m] ∧ m ≠ Json.str "") := by
  cases fl with
  | nil => simp [getD_nil] at hd
  | cons p fl' =>
    constructor
    · intro hre
      rw [translate_obj]
      simp [hd, hre, Json.isStr, Json.truthy]
    · rw [translate_obj]
      simp only [hd, Json.isStr, List.isEmpty_cons]
      by_cases htr : (getD (p :: fl') "reason" (Json.str "")).truthy = true
      · refine ⟨getD (p :: fl') "reason" (Json.str ""), by simp [htr], ?_⟩
        intro hcon
        rw [hcon] at htr
        simp [Json.truthy] at htr
      · refine ⟨Json.str denyDefaultMsg, by simp [htr], ?_⟩
        simp [denyDefaultMsg]

/-- Witness for claim C10: a concrete deny reply with an empty reason gets
the default message. -/
theorem claim_C10_witness :
    translate (some (Json.obj [("decision", Json.str "deny"), ("reason", Json.str "")]))
      = .ok [denyDoc (Json.str denyDefaultMsg)] :=
  (claim_C10 [("decision", Json.str "deny"), ("reason", Json.str "")] rfl).1 rfl

end ClaudeIsland
